import Mathlib

set_option linter.unnecessarySeqFocus false
set_option linter.unreachableTactic false
set_option linter.unusedTactic false

/-!
Verification of the SecuPatch compliance evaluator (`src/project.py`).

Embedding choices:
* A log timestamp is a `datetime` at midnight produced by
  `datetime.strptime(row["timestamp"], "%Y-%m-%d")`.  We model it by its
  proleptic-Gregorian day ordinal (`datetime.toordinal()`), an `Int`.
  For two midnight datetimes `a`, `b`, Python's `(a - b).days` equals the
  difference of their ordinals, so `days_since_2024` below is
  `timestamp - epoch2024` where `epoch2024` is `datetime(2024,1,1).toordinal()`.
* The patch manifest is a Python `dict` (server ↦ required patch); we model it
  as an association list in insertion order.  Python dict keys are unique.
* The three status strings "Compliant" / "Partially Compliant" /
  "Non-Compliant" produced by `evaluate_compliance` are modelled by the
  enumerated type `ComplianceStatus`; `statusText` recovers the exact strings.
-/

/-- One parsed row of the CSV patch log (`parse_log_file`). -/
structure LogEntry where
  server : String
  patch : String
  timestamp : Int
deriving DecidableEq, Repr

/-- `datetime(2024, 1, 1).toordinal()`. -/
def epoch2024 : Int := 738886

/-- `[log for log in logs if log["server"] == server]` (project.py line 84). -/
def matchingLogs (logs : List LogEntry) (server : String) : List LogEntry :=
  logs.filter (fun log => log.server == server)

/-- `any(log["patch"] == required_patch for log in matching_logs)` (line 87). -/
def hasRequiredPatch (required_patch : String) (matching : List LogEntry) : Bool :=
  matching.any (fun log => log.patch == required_patch)

/-- `max(log["timestamp"] for log in matching_logs)` with `default="N/A"`:
`none` models the `"N/A"` sentinel (lines 98 and 142). -/
def latestTimestamp (matching : List LogEntry) : Option Int :=
  (matching.map (fun log => log.timestamp)).max?

/-- The graduated score computation of `evaluate_compliance`
(project.py lines 90-129), for one server's `required_patch` and
`matching_logs`. -/
def computeScore (required_patch : String) (matching : List LogEntry) : Int :=
  let score : Int :=
    if hasRequiredPatch required_patch matching then
      -- Base score for having required patch
      let base : Int := 60
      -- Bonus points for patch recency (up to 25 points)
      let withRecency : Int :=
        match latestTimestamp matching with
        | some latest_date =>
            let days_since_2024 : Int := latest_date - epoch2024
            if days_since_2024 > 150 then base + 25
            else if days_since_2024 > 90 then base + 15
            else base + 5
        | none => base
      -- Bonus points for patch management activity (up to 15 points)
      let patch_count := matching.length
      if patch_count ≥ 3 then withRecency + 15
      else if patch_count ≥ 2 then withRecency + 10
      else withRecency + 5
    else
      -- Partial credit for having some patches, even if not the required one
      if !matching.isEmpty then
        let patch_count := matching.length
        if patch_count ≥ 3 then 30
        else if patch_count ≥ 2 then 20
        else 10
      else 0
  -- Ensure score doesn't exceed 100
  min score 100

/-- The three compliance tiers; `evaluate_compliance` emits them as the
strings "Compliant", "Partially Compliant", "Non-Compliant". -/
inductive ComplianceStatus where
  | Compliant
  | PartiallyCompliant
  | NonCompliant
deriving DecidableEq, Repr

/-- The exact status string used by the Python code for each tier. -/
def statusText : ComplianceStatus → String
  | .Compliant => "Compliant"
  | .PartiallyCompliant => "Partially Compliant"
  | .NonCompliant => "Non-Compliant"

/-- Status from score (project.py lines 132-137). -/
def classify (score : Int) : ComplianceStatus :=
  if score ≥ 80 then .Compliant
  else if score ≥ 40 then .PartiallyCompliant
  else .NonCompliant

/-- A row of the `scores` table (line 139). -/
structure ScoreRecord where
  server : String
  score : Int
deriving DecidableEq, Repr

/-- A row of the `breakdown` table (lines 143-148); `latest_patch_date = none`
models the `"N/A"` sentinel. -/
structure BreakdownRecord where
  server : String
  required_patch : String
  status : ComplianceStatus
  latest_patch_date : Option Int
deriving DecidableEq, Repr

/-- The triple returned by `evaluate_compliance`. -/
structure EvalResult where
  compliance : List (String × ComplianceStatus)
  scores : List ScoreRecord
  breakdown : List BreakdownRecord
deriving DecidableEq, Repr

/-- `evaluate_compliance(patch_manifest, logs)` (project.py lines 67-150).
Each manifest entry `(server, required_patch)` contributes, in manifest
order, one `compliance` entry, one `ScoreRecord` and one `BreakdownRecord`.
(The Python `compliance` dict gets one fresh key per iteration because
manifest keys are unique dict keys, so it is the association list below.) -/
def evaluate_compliance (patch_manifest : List (String × String))
    (logs : List LogEntry) : EvalResult :=
  { compliance := patch_manifest.map (fun entry =>
      (entry.1, classify (computeScore entry.2 (matchingLogs logs entry.1))))
    scores := patch_manifest.map (fun entry =>
      { server := entry.1
        score := computeScore entry.2 (matchingLogs logs entry.1) })
    breakdown := patch_manifest.map (fun entry =>
      { server := entry.1
        required_patch := entry.2
        status := classify (computeScore entry.2 (matchingLogs logs entry.1))
        latest_patch_date := latestTimestamp (matchingLogs logs entry.1) }) }

/-- Servers listed as "Compliant" by `generate_summary_text` (line 163). -/
def serversCompliant (compliance : List (String × ComplianceStatus)) : List String :=
  (compliance.filter (fun p => p.2 == .Compliant)).map (fun p => p.1)

/-- Servers listed as "Partially Compliant" by `generate_summary_text` (line 164). -/
def serversPartiallyCompliant (compliance : List (String × ComplianceStatus)) : List String :=
  (compliance.filter (fun p => p.2 == .PartiallyCompliant)).map (fun p => p.1)

/-- Servers listed as "Non-Compliant" by `generate_summary_text` (line 165). -/
def serversNonCompliant (compliance : List (String × ComplianceStatus)) : List String :=
  (compliance.filter (fun p => p.2 == .NonCompliant)).map (fun p => p.1)

/-- `generate_summary_text(compliance)` (project.py lines 153-172). -/
def generate_summary_text (compliance : List (String × ComplianceStatus)) : String :=
  let compliant := serversCompliant compliance
  let partially_compliant := serversPartiallyCompliant compliance
  let non_compliant := serversNonCompliant compliance
  "--- COMPLIANCE SUMMARY ---\n"
    ++ "Compliant Servers (" ++ toString compliant.length ++ "): "
    ++ toString compliant ++ "\n"
    ++ "Partially Compliant Servers (" ++ toString partially_compliant.length ++ "): "
    ++ toString partially_compliant ++ "\n"
    ++ "Non-Compliant Servers (" ++ toString non_compliant.length ++ "): "
    ++ toString non_compliant ++ "\n"

/-- Modelled from the spec: the binary scoring policy (§4.2, "score = 100 if
any matching log's patch equals required_patch, else 0").  The spec presents
it as the second of "two variants of the evaluator ... in the source", but
`src/` contains only the graduated evaluator `evaluate_compliance`; the
binary variant's scoring function is missing from `src/` and is modelled
here from the spec's words. -/
def binaryScore (required_patch : String) (matching : List LogEntry) : Int :=
  if hasRequiredPatch required_patch matching then 100 else 0

/-! ### Helper lemmas -/

/-- `latestTimestamp` returns `some d` exactly when `d` is attained by a
matching log entry and bounds all matching timestamps from above. -/
theorem latestTimestamp_eq_some_iff {m : List LogEntry} {d : Int} :
    latestTimestamp m = some d ↔
      ((∃ e ∈ m, e.timestamp = d) ∧ ∀ e ∈ m, e.timestamp ≤ d) := by
  unfold latestTimestamp
  haveI : Std.Antisymm ((· : Int) ≤ ·) := ⟨fun h h2 => le_antisymm h h2⟩
  rw [List.max?_eq_some_iff (fun a => le_refl a) max_choice (fun a b c => max_le_iff)]
  simp only [List.mem_map]
  constructor
  · rintro ⟨⟨e, he, hd⟩, hub⟩
    exact ⟨⟨e, he, hd⟩, fun e2 he2 => hub _ ⟨e2, he2, rfl⟩⟩
  · rintro ⟨⟨e, he, hd⟩, hub⟩
    exact ⟨⟨e, he, hd⟩, fun t ⟨e2, he2, ht⟩ => ht ▸ hub e2 he2⟩

/-- The `"N/A"` sentinel (`none`) appears exactly for an empty matching list. -/
theorem latestTimestamp_none_iff {m : List LogEntry} :
    latestTimestamp m = none ↔ m = [] := by
  unfold latestTimestamp
  rw [List.max?_eq_none_iff, List.map_eq_nil_iff]

/-- A server with the required patch has a non-empty matching list. -/
theorem hasRequiredPatch_ne_nil {required_patch : String} {m : List LogEntry}
    (h : hasRequiredPatch required_patch m = true) : m ≠ [] := by
  rintro rfl
  simp [hasRequiredPatch] at h

/-- When the required patch is present, `computeScore` is 60 plus the recency
bonus at the latest matching timestamp plus the activity bonus at the
matching-log count, capped at 100. -/
theorem computeScore_hasRequired_eq {required_patch : String}
    {matching : List LogEntry} {d : Int}
    (h : hasRequiredPatch required_patch matching = true)
    (hd : latestTimestamp matching = some d) :
    computeScore required_patch matching =
      min (60 + (if 150 < d - epoch2024 then 25
                 else if 90 < d - epoch2024 then 15 else 5)
              + (if 3 ≤ matching.length then (15 : Int)
                 else if matching.length = 2 then 10 else 5)) 100 := by
  unfold computeScore
  rw [hd]
  simp only [h, if_true]
  split_ifs <;> omega

/-- When the required patch is absent, `computeScore` is the partial credit
determined by the matching-log count alone. -/
theorem computeScore_notRequired_eq {required_patch : String}
    {matching : List LogEntry}
    (h : hasRequiredPatch required_patch matching = false) :
    computeScore required_patch matching =
      if matching = [] then 0
      else if 3 ≤ matching.length then 30
      else if matching.length = 2 then 20
      else (10 : Int) := by
  unfold computeScore
  simp only [h, Bool.false_eq_true, if_false, Bool.not_eq_true', List.isEmpty_iff]
  split_ifs <;> first | rfl | omega | simp_all

/-- `classify` lands in the bottom tier exactly for scores below 40. -/
theorem classify_eq_nonCompliant_iff {score : Int} :
    classify score = .NonCompliant ↔ score < 40 := by
  unfold classify
  split_ifs <;> simp_all <;> omega

/-! ### Claim theorems -/

/-- C1: Under the graduated policy, for every server whose matching logs
contain the required patch, the score equals a base of 60 plus a recency
bonus determined by the days between the latest matching-log timestamp and
2024-01-01 (more than 150 days: +25; more than 90 and at most 150: +15;
otherwise: +5) plus an activity bonus determined by the count of matching
logs (at least 3: +15; exactly 2: +10; otherwise: +5), with the total capped
at 100. -/
theorem graduated_score_formula (logs : List LogEntry)
    (server required_patch : String) (d : Int)
    (h : hasRequiredPatch required_patch (matchingLogs logs server) = true)
    (hd : latestTimestamp (matchingLogs logs server) = some d) :
    computeScore required_patch (matchingLogs logs server) =
      min (60 + (if 150 < d - epoch2024 then 25
                 else if 90 < d - epoch2024 ∧ d - epoch2024 ≤ 150 then 15 else 5)
              + (if 3 ≤ (matchingLogs logs server).length then (15 : Int)
                 else if (matchingLogs logs server).length = 2 then 10 else 5))
        100 := by
  rw [computeScore_hasRequired_eq h hd]
  split_ifs <;> omega

/-- Witness for C1: one matching log dated 2024-05-01 (ordinal 739007,
121 days after the epoch) scores `min (60 + 15 + 5) 100 = 80`. -/
theorem graduated_score_formula_witness :
    computeScore "patch1"
        (matchingLogs [⟨"srv01", "patch1", 739007⟩] "srv01") =
      min (60 + (if (150 : Int) < 739007 - epoch2024 then 25
                 else if (90 : Int) < 739007 - epoch2024 ∧
                     (739007 : Int) - epoch2024 ≤ 150 then 15 else 5)
              + (if 3 ≤ (matchingLogs [⟨"srv01", "patch1", 739007⟩] "srv01").length
                 then (15 : Int)
                 else if (matchingLogs [⟨"srv01", "patch1", 739007⟩] "srv01").length = 2
                 then 10 else 5)) 100 :=
  graduated_score_formula [⟨"srv01", "patch1", 739007⟩] "srv01" "patch1" 739007
    (by decide) (by decide)

/-- C2: `evaluate_compliance` produces exactly one score record and one
breakdown record per manifest key: the outputs have length `len(M)` and the
server column of each of the three outputs is exactly the manifest key list,
in manifest order; consequently every server named in any output is a
manifest key, so servers appearing only in the logs never appear in the
outputs. -/
theorem evaluate_output_shape (patch_manifest : List (String × String))
    (logs : List LogEntry) :
    (evaluate_compliance patch_manifest logs).scores.length
        = patch_manifest.length ∧
    (evaluate_compliance patch_manifest logs).breakdown.length
        = patch_manifest.length ∧
    (evaluate_compliance patch_manifest logs).scores.map ScoreRecord.server
        = patch_manifest.map Prod.fst ∧
    (evaluate_compliance patch_manifest logs).breakdown.map BreakdownRecord.server
        = patch_manifest.map Prod.fst ∧
    (evaluate_compliance patch_manifest logs).compliance.map Prod.fst
        = patch_manifest.map Prod.fst ∧
    (∀ p ∈ (evaluate_compliance patch_manifest logs).compliance,
        p.1 ∈ patch_manifest.map Prod.fst) ∧
    (∀ r ∈ (evaluate_compliance patch_manifest logs).scores,
        r.server ∈ patch_manifest.map Prod.fst) ∧
    (∀ b ∈ (evaluate_compliance patch_manifest logs).breakdown,
        b.server ∈ patch_manifest.map Prod.fst) := by
  refine ⟨by simp [evaluate_compliance], by simp [evaluate_compliance],
    by simp [evaluate_compliance, List.map_map],
    by simp [evaluate_compliance, List.map_map],
    by simp [evaluate_compliance, List.map_map], ?_, ?_, ?_⟩
  all_goals
    intro x hx
    simp only [evaluate_compliance, List.mem_map] at hx
    obtain ⟨entry, he, rfl⟩ := hx
    exact List.mem_map.mpr ⟨entry, he, rfl⟩

/-- Witness for C2: in a one-entry manifest evaluated against empty logs, the
lone compliance entry's server is a manifest key. -/
theorem evaluate_output_shape_witness :
    "srv01" ∈ [("srv01", "patch1")].map Prod.fst :=
  (evaluate_output_shape [("srv01", "patch1")] []).2.2.2.2.2.1
    ("srv01", ComplianceStatus.NonCompliant) (by decide)

/-- C3: Classification is a function of the score alone and is
threshold-exact: at least 80 yields Compliant, at least 40 and below 80
yields PartiallyCompliant, below 40 yields NonCompliant; in particular
classify 80 = Compliant, classify 79 = PartiallyCompliant,
classify 40 = PartiallyCompliant, classify 39 = NonCompliant. -/
theorem classify_thresholds :
    (∀ score : Int, 80 ≤ score → classify score = .Compliant) ∧
    (∀ score : Int, 40 ≤ score → score < 80 →
        classify score = .PartiallyCompliant) ∧
    (∀ score : Int, score < 40 → classify score = .NonCompliant) ∧
    classify 80 = .Compliant ∧ classify 79 = .PartiallyCompliant ∧
    classify 40 = .PartiallyCompliant ∧ classify 39 = .NonCompliant := by
  refine ⟨?_, ?_, ?_, by decide, by decide, by decide, by decide⟩
  · intro score h
    unfold classify
    split_ifs <;> first | rfl | omega
  · intro score h h2
    unfold classify
    split_ifs <;> first | rfl | omega
  · intro score h
    unfold classify
    split_ifs <;> first | rfl | omega

/-- Witness for C3 at concrete scores. -/
theorem classify_thresholds_witness :
    classify 95 = .Compliant ∧ classify 55 = .PartiallyCompliant ∧
    classify 10 = .NonCompliant :=
  ⟨classify_thresholds.1 95 (by decide),
   classify_thresholds.2.1 55 (by decide) (by decide),
   classify_thresholds.2.2.1 10 (by decide)⟩

/-- C4: Under the binary policy (modelled from the spec, see `binaryScore`),
the score is exactly 100 iff the required patch appears among the server's
matching logs, and exactly 0 otherwise. -/
theorem binary_score_iff (logs : List LogEntry)
    (server required_patch : String) :
    (binaryScore required_patch (matchingLogs logs server) = 100 ↔
      ∃ e ∈ logs, e.server = server ∧ e.patch = required_patch) ∧
    (binaryScore required_patch (matchingLogs logs server) = 0 ↔
      ¬ ∃ e ∈ logs, e.server = server ∧ e.patch = required_patch) := by
  have hiff : hasRequiredPatch required_patch (matchingLogs logs server) = true ↔
      ∃ e ∈ logs, e.server = server ∧ e.patch = required_patch := by
    simp only [hasRequiredPatch, matchingLogs, List.any_eq_true, List.mem_filter,
      beq_iff_eq]
    constructor
    · rintro ⟨e, ⟨he, hs⟩, hp⟩
      exact ⟨e, he, hs, hp⟩
    · rintro ⟨e, he, hs, hp⟩
      exact ⟨e, ⟨he, hs⟩, hp⟩
  unfold binaryScore
  constructor
  · rw [← hiff]
    split_ifs with hb <;> simp [hb]
  · rw [← hiff]
    split_ifs with hb <;> simp [hb]

/-- Three matching required-patch logs dated at the 2024-01-01 epoch
(lowest recency bonus, highest activity bonus). -/
def logsManySlow : List LogEntry :=
  [⟨"srv01", "patch1", 738886⟩, ⟨"srv01", "patch1", 738886⟩,
   ⟨"srv01", "patch1", 738886⟩]

/-- One matching required-patch log dated 151 days after the epoch
(highest recency bonus, lowest activity bonus). -/
def logsOneFast : List LogEntry := [⟨"srv01", "patch1", 739037⟩]

/-- One matching required-patch log dated at the epoch. -/
def logsOneOld : List LogEntry := [⟨"srv01", "patch1", 738886⟩]

/-- C5 counterexample: both log lists for srv01 contain the required patch
and the first has the larger matching-log count (3 vs 1), yet its score is
smaller (80 < 90), because the second's single log is recent enough for the
+25 recency bonus.  Score is not monotone in matching-log count alone. -/
theorem count_monotonicity_counterexample :
    hasRequiredPatch "patch1" (matchingLogs logsManySlow "srv01") = true ∧
    hasRequiredPatch "patch1" (matchingLogs logsOneFast "srv01") = true ∧
    (matchingLogs logsOneFast "srv01").length ≤
      (matchingLogs logsManySlow "srv01").length ∧
    computeScore "patch1" (matchingLogs logsManySlow "srv01") <
      computeScore "patch1" (matchingLogs logsOneFast "srv01") := by
  decide

/-- C5 amended: under the graduated policy with the required patch present in
both log lists for the same server, if one list's matching-log count AND its
latest matching timestamp are both at least the other's, then its score is at
least the other's. -/
theorem graduated_score_monotonic (server required_patch : String)
    (logsA logsB : List LogEntry) (dA dB : Int)
    (hA : hasRequiredPatch required_patch (matchingLogs logsA server) = true)
    (hB : hasRequiredPatch required_patch (matchingLogs logsB server) = true)
    (hdA : latestTimestamp (matchingLogs logsA server) = some dA)
    (hdB : latestTimestamp (matchingLogs logsB server) = some dB)
    (hcount : (matchingLogs logsB server).length ≤
      (matchingLogs logsA server).length)
    (hdate : dB ≤ dA) :
    computeScore required_patch (matchingLogs logsB server) ≤
      computeScore required_patch (matchingLogs logsA server) := by
  rw [computeScore_hasRequired_eq hA hdA, computeScore_hasRequired_eq hB hdB]
  split_ifs <;> omega

/-- Witness for the amended C5 at concrete log lists (scores 70 ≤ 80). -/
theorem graduated_score_monotonic_witness :
    computeScore "patch1" (matchingLogs logsOneOld "srv01") ≤
      computeScore "patch1" (matchingLogs logsManySlow "srv01") :=
  graduated_score_monotonic "srv01" "patch1" logsManySlow logsOneOld
    738886 738886 (by decide) (by decide) (by decide) (by decide)
    (by decide) (by decide)

/-- Every graduated score is in [0, 100]. -/
theorem computeScore_bounds {required_patch : String}
    {matching : List LogEntry} :
    0 ≤ computeScore required_patch matching ∧
    computeScore required_patch matching ≤ 100 := by
  unfold computeScore
  rcases hlt : latestTimestamp matching with _ | d <;>
    simp only [hlt] <;> split_ifs <;> omega

/-- C6: every score emitted by `evaluate_compliance` (graduated policy) lies
in [0, 100], and so does every score of the spec-modelled binary policy. -/
theorem scores_in_range (patch_manifest : List (String × String))
    (logs : List LogEntry) :
    (∀ r ∈ (evaluate_compliance patch_manifest logs).scores,
        0 ≤ r.score ∧ r.score ≤ 100) ∧
    ∀ (required_patch : String) (matching : List LogEntry),
        0 ≤ binaryScore required_patch matching ∧
        binaryScore required_patch matching ≤ 100 := by
  constructor
  · intro r hr
    simp only [evaluate_compliance, List.mem_map] at hr
    obtain ⟨entry, he, rfl⟩ := hr
    exact computeScore_bounds
  · intro required_patch matching
    unfold binaryScore
    split_ifs <;> omega

/-- Witness for C6: the lone score record of a one-entry manifest with empty
logs is in range. -/
theorem scores_in_range_witness :
    0 ≤ ({ server := "srv01", score := 0 } : ScoreRecord).score ∧
    ({ server := "srv01", score := 0 } : ScoreRecord).score ≤ 100 :=
  (scores_in_range [("srv01", "patch1")] []).1
    { server := "srv01", score := 0 } (by decide)

/-- C7: without the required patch, the score is 30 for at least 3 matching
logs, 20 for exactly 2, 10 for exactly 1, 0 for none, and the server is
always classified NonCompliant. -/
theorem partial_credit_scores (logs : List LogEntry)
    (server required_patch : String)
    (h : hasRequiredPatch required_patch (matchingLogs logs server) = false) :
    (3 ≤ (matchingLogs logs server).length →
        computeScore required_patch (matchingLogs logs server) = 30) ∧
    ((matchingLogs logs server).length = 2 →
        computeScore required_patch (matchingLogs logs server) = 20) ∧
    ((matchingLogs logs server).length = 1 →
        computeScore required_patch (matchingLogs logs server) = 10) ∧
    (matchingLogs logs server = [] →
        computeScore required_patch (matchingLogs logs server) = 0) ∧
    classify (computeScore required_patch (matchingLogs logs server)) =
      .NonCompliant := by
  have hsc := computeScore_notRequired_eq h
  refine ⟨fun h3 => ?_, fun h2 => ?_, fun h1 => ?_, fun h0 => ?_, ?_⟩
  · rw [hsc]; split_ifs <;> first | rfl | simp_all | omega
  · rw [hsc]; split_ifs <;> first | rfl | simp_all | omega
  · rw [hsc]; split_ifs <;> first | rfl | simp_all | omega
  · rw [hsc]; split_ifs <;> first | rfl | simp_all | omega
  · rw [hsc, classify_eq_nonCompliant_iff]
    split_ifs <;> omega

/-- Witness for C7: one matching log with the wrong patch is classified
NonCompliant. -/
theorem partial_credit_scores_witness :
    classify (computeScore "patch9"
        (matchingLogs [⟨"srv01", "patch1", 738886⟩] "srv01")) =
      .NonCompliant :=
  (partial_credit_scores [⟨"srv01", "patch1", 738886⟩] "srv01" "patch9"
    (by decide)).2.2.2.2

/-- C8: in every breakdown record, `latest_patch_date` is the `"N/A"`
sentinel (`none`) exactly when the server's matching-log list is empty, and
any `some d` value is the maximum timestamp among the matching logs. -/
theorem breakdown_latest_patch_date (patch_manifest : List (String × String))
    (logs : List LogEntry) :
    ∀ b ∈ (evaluate_compliance patch_manifest logs).breakdown,
      (b.latest_patch_date = none ↔ matchingLogs logs b.server = []) ∧
      ∀ d : Int, b.latest_patch_date = some d →
        (∃ e ∈ matchingLogs logs b.server, e.timestamp = d) ∧
        ∀ e ∈ matchingLogs logs b.server, e.timestamp ≤ d := by
  intro b hb
  simp only [evaluate_compliance, List.mem_map] at hb
  obtain ⟨entry, he, rfl⟩ := hb
  exact ⟨latestTimestamp_none_iff, fun d hd => latestTimestamp_eq_some_iff.mp hd⟩

/-- Witness for C8: srv01's breakdown record over a one-log list reports the
log's timestamp as the maximum. -/
theorem breakdown_latest_patch_date_witness :
    (∃ e ∈ matchingLogs [⟨"srv01", "patch1", 739007⟩] "srv01",
        e.timestamp = 739007) ∧
    ∀ e ∈ matchingLogs [⟨"srv01", "patch1", 739007⟩] "srv01",
        e.timestamp ≤ 739007 :=
  (breakdown_latest_patch_date [("srv01", "patch1")]
      [⟨"srv01", "patch1", 739007⟩]
      { server := "srv01", required_patch := "patch1",
        status := ComplianceStatus.Compliant,
        latest_patch_date := some 739007 }
      (by decide)).2 739007 (by decide)

/-- C9: the three per-tier server lists rendered by `generate_summary_text`
(Compliant, PartiallyCompliant, NonCompliant, in that order) have lengths
summing to the size of the status map. -/
theorem summary_counts_sum (compliance : List (String × ComplianceStatus)) :
    (serversCompliant compliance).length
      + (serversPartiallyCompliant compliance).length
      + (serversNonCompliant compliance).length = compliance.length := by
  induction compliance with
  | nil => rfl
  | cons head tail ih =>
    obtain ⟨s, st⟩ := head
    unfold serversCompliant serversPartiallyCompliant serversNonCompliant at *
    simp only [List.length_map] at ih ⊢
    cases st <;> simp [List.filter_cons] <;> omega

/-- C10: with the required patch present among the matching logs, the
graduated score is at least 70, so such a server is never classified
NonCompliant. -/
theorem required_patch_not_nonCompliant (required_patch : String)
    (matching : List LogEntry)
    (h : hasRequiredPatch required_patch matching = true) :
    70 ≤ computeScore required_patch matching ∧
    classify (computeScore required_patch matching) ≠ .NonCompliant := by
  have hne : matching ≠ [] := hasRequiredPatch_ne_nil h
  obtain ⟨d, hd⟩ : ∃ d, latestTimestamp matching = some d := by
    cases hlt : latestTimestamp matching with
    | none => exact absurd (latestTimestamp_none_iff.mp hlt) hne
    | some d => exact ⟨d, rfl⟩
  have h70 : 70 ≤ computeScore required_patch matching := by
    rw [computeScore_hasRequired_eq h hd]
    split_ifs <;> omega
  refine ⟨h70, ?_⟩
  simp only [Ne, classify_eq_nonCompliant_iff]
  omega

/-- Witness for C10 at a concrete one-log list with the required patch. -/
theorem required_patch_not_nonCompliant_witness :
    70 ≤ computeScore "patch1" [⟨"srv01", "patch1", 739007⟩] ∧
    classify (computeScore "patch1" [⟨"srv01", "patch1", 739007⟩]) ≠
      .NonCompliant :=
  required_patch_not_nonCompliant "patch1" [⟨"srv01", "patch1", 739007⟩]
    (by decide)
